import Mathlib

/-!
Verification of the `jobbigt` HTTP test library (package `jobbigt`).

This file gives a shallow embedding of the Result model, the `Request`
execution core (`Run`), the builder surface, and `RequestGroup`, translated
from the Go source.  The HTTP transport and the body reader are external
collaborators: they are modelled by an environment (`Env`) that maps the
index of each transport call performed during one logical `Run` to either a
transport error or a response whose body read succeeds or fails.  Hooks, the
test function and assertions are modelled as the (pure) functions the Go
code stores in the `Request` struct.  Besides the returned `Result`, the
embedded `Run` also produces a trace of the observable events (hook
invocations, transport calls, assertion calls, test calls, sleeps) so that
statements such as "no transport call occurs" can be expressed.

The Go retry loop decrements the `iterations` counter (an `int`) and only
stops when it is exactly 0; when the counter is already `≤ 0` at a retry the
Go program keeps recursing (for astronomically many steps).  That unreachable
regime is outside the model: the embedded run returns `none` there, and all
theorems about termination carry the `1 ≤ iterations` hypothesis under which
the code is actually used.
-/

namespace Jobbigt

/-- `ResultType`: describes the result of a test (Go `const` block). -/
inductive ResultType where
  | Success
  | Failure
  | Stop
  | Error
  | Skip
  | Repeat
  | NoTest
  deriving DecidableEq, Repr

/-- Go `map[string]string`, as an association list. -/
abbrev DSMap := List (String × String)

/-- `Result`: Go struct `Result{Type, Description, DownStreamArgs}`.
`downStreamArgs = none` models a `nil` map (the Go zero value); `some m`
models a non-nil map with entries `m`. -/
structure Result where
  type : ResultType
  description : String := ""
  downStreamArgs : Option DSMap := none
  deriving DecidableEq, Repr

/-- Go `func (r *Result) Error() string`. -/
def Result.error (r : Result) : String :=
  if r.type = ResultType.Error then r.description else ""

/-- Go `AnnotateResult(r *Result, desc string) *Result`: a fresh Result with
the same Type and description `fmt.Sprintf("%s: %s", desc, r.Description)`;
`DownStreamArgs` is not set, hence nil. -/
def AnnotateResult (r : Result) (desc : String) : Result :=
  { type := r.type
    description := desc ++ ": " ++ r.description
    downStreamArgs := none }

/-- An HTTP response, as much of `*http.Response` as the core reads: the
status code, and the outcome of draining its body (`io.ReadAll`), which
either fails with an error message or yields the body bytes. -/
structure Response where
  statusCode : Int
  bodyBytes : Except String (List Nat)

/-- One `...any` argument of `Run`; in this program the only values ever
passed are downstream-args maps. -/
abbrev Arg := Option DSMap

/-- The variadic `args ...any` of `Run`. -/
abbrev Args := List Arg

/-- The external HTTP transport: the result of `perform()` on the `k`-th
transport call of one logical `Run` (`k` starts at 0 and counts every
attempt, including retries). -/
structure Env where
  transport : Nat → Except String Response

/-- Go struct `Request`.  Function-valued fields keep their Go types
(`func() *Result`, `func(*http.Response, ...any) Result`,
`func(*Result) *Result`, `[]func(*http.Response) *Result`); Go `nil`
function pointers are `none` / the empty list.  Defaults are the Go zero
values, so that a bare struct literal matches the Go tests. -/
structure Request where
  id : String := ""
  url : String := ""
  method : String := ""
  body : Option (List Nat) := none
  headers : List (String × String) := []
  sleep : Nat := 0
  timeout : Int := 0
  iterations : Int := 0
  responseBody : Option (List Nat) := none
  preRequestFunc : Option (Unit → Result) := none
  testFunc : Option (Response → Args → Result) := none
  postRequestFunc : Option (Result → Result) := none
  assertions : List (Response → Result) := []

/-- The standard base64 alphabet. -/
def base64Alphabet : List Char :=
  "ABCDEFGHIJKLMNOPQRSTUVWXYZabcdefghijklmnopqrstuvwxyz0123456789+/".toList

/-- The base64 digit for a 6-bit value. -/
def base64Char (n : Nat) : Char :=
  base64Alphabet.getD n 'A'

/-- Encode one final chunk of at most three bytes, with `=` padding. -/
def base64Chunk : List Nat → List Char
  | [a] => [base64Char (a / 4), base64Char (a % 4 * 16), '=', '=']
  | [a, b] => [base64Char (a / 4), base64Char (a % 4 * 16 + b / 16),
      base64Char (b % 16 * 4), '=']
  | [a, b, c] => [base64Char (a / 4), base64Char (a % 4 * 16 + b / 16),
      base64Char (b % 16 * 4 + c / 64), base64Char (c % 64)]
  | _ => []

/-- Standard base64 of a byte sequence (Go `base64.StdEncoding.EncodeToString`). -/
def base64Encode : List Nat → List Char
  | [] => []
  | a :: b :: c :: rest => base64Chunk [a, b, c] ++ base64Encode rest
  | rest => base64Chunk rest

/-- Standard base64 of the UTF-8 bytes of a string. -/
def base64String (s : String) : String :=
  String.mk (base64Encode (s.toUTF8.toList.map UInt8.toNat))

/-- Go `newRequest(url, method string) *Request`.  The fresh id produced by
the external uuid generator is passed in as `uuid`. -/
def newRequest (uuid url method : String) : Request :=
  { id := uuid
    url := url
    method := method
    body := none
    headers := []
    timeout := 100
    iterations := 1 }

/-- Go `Get(url)`: a new GET request. -/
def Get (uuid url : String) : Request :=
  newRequest uuid url "GET"

/-- Go `Post(url)`: a new POST request. -/
def Post (uuid url : String) : Request :=
  newRequest uuid url "POST"

/-- Go `(r *Request) Id(id string)`. -/
def Request.Id (r : Request) (id : String) : Request :=
  { r with id := id }

/-- Go `(r *Request) Body(body []byte)`. -/
def Request.Body (r : Request) (b : Option (List Nat)) : Request :=
  { r with body := b }

/-- Go `(r *Request) Header(key, value string)`: `http.Header.Add` appends. -/
def Request.Header (r : Request) (key value : String) : Request :=
  { r with headers := r.headers ++ [(key, value)] }

/-- Go `(r *Request) BasicAuth(username, password string)`. -/
def Request.BasicAuth (r : Request) (username password : String) : Request :=
  { r with headers := r.headers ++
      [("Authorization", "Basic " ++ base64String (username ++ ":" ++ password))] }

/-- Go `(r *Request) Sleep(sleep time.Duration)`. -/
def Request.Sleep (r : Request) (d : Nat) : Request :=
  { r with sleep := d }

/-- Go `(r *Request) Timeout(timeout int)`. -/
def Request.Timeout (r : Request) (t : Int) : Request :=
  { r with timeout := t }

/-- Go `(r *Request) Iterations(iterations int)`: values below 1 are
ignored, keeping the stored value. -/
def Request.Iterations (r : Request) (n : Int) : Request :=
  if 1 ≤ n then { r with iterations := n } else r

/-- Go `(r *Request) Test(testFunc ...)`. -/
def Request.Test (r : Request) (f : Response → Args → Result) : Request :=
  { r with testFunc := some f }

/-- Go `(r *Request) PreRequest(preRequestFunc func() *Result)`. -/
def Request.PreRequest (r : Request) (f : Unit → Result) : Request :=
  { r with preRequestFunc := some f }

/-- Go `(r *Request) PostRequest(postRequestFunc func(*Result) *Result)`. -/
def Request.PostRequest (r : Request) (f : Result → Result) : Request :=
  { r with postRequestFunc := some f }

/-- Go `(r *Request) StatusCode(expectedStatusCode int)`: appends the
status-code assertion closure. -/
def Request.StatusCode (r : Request) (expected : Int) : Request :=
  { r with assertions := r.assertions ++
      [fun response =>
        if response.statusCode ≠ expected then
          { type := ResultType.Failure
            description := "received unexpected status code, exepcted " ++
              toString expected ++ " but received " ++ toString response.statusCode }
        else
          { type := ResultType.Success }] }

/-- Appending an arbitrary assertion closure (common shape of the Go
`BodyIsEmpty`/`BodyIsJson` builders, whose closure bodies are irrelevant to
the claims about the builder surface). -/
def Request.addAssertion (r : Request) (a : Response → Result) : Request :=
  { r with assertions := r.assertions ++ [a] }

/-- Observable events of one logical `Run`, in order of occurrence. -/
inductive Event where
  | preHook (res : Result)
  | transportCall (k : Nat)
  | assertionCall (res : Result)
  | testCall (res : Result)
  | postHookCall (arg : Result) (res : Result)
  | sleepEv (d : Nat)
  deriving DecidableEq, Repr

/-- Number of post-request-hook invocations in a trace. -/
def postHookCount (t : List Event) : Nat :=
  t.countP fun e =>
    match e with
    | Event.postHookCall _ _ => true
    | _ => false

/-- Number of transport calls in a trace. -/
def transportCount (t : List Event) : Nat :=
  t.countP fun e =>
    match e with
    | Event.transportCall _ => true
    | _ => false

/-- Go `(r *Request) checkAssertions(response)`: run the registered
assertions in order against the response, stopping at the first whose
result is not `Success`; returns a fresh `Success` result when all pass.
Also records each assertion invocation. -/
def checkAssertions (response : Response) : List (Response → Result) → Result × List Event
  | [] => ({ type := ResultType.Success }, [])
  | a :: rest =>
    let res := a response
    if res.type = ResultType.Success then
      let (r2, t2) := checkAssertions response rest
      (r2, Event.assertionCall res :: t2)
    else
      (res, [Event.assertionCall res])

/-- The pre-hook stage of `Run`: `none` means fall through to the transport
call; `some early` is the annotated early return. -/
def preStage (r : Request) : Option Result × List Event :=
  match r.preRequestFunc with
  | none => (none, [])
  | some f =>
    let res := f ()
    if res.type = ResultType.Success then
      (none, [Event.preHook res])
    else
      (some (AnnotateResult res "received non successful result from pre request func"),
        [Event.preHook res])

/-- The post-hook stage of `Run`: given the working result, return what
`Run` returns plus the trace of the hook invocation (if any). -/
def postStage (r : Request) (working : Result) : Result × List Event :=
  match r.postRequestFunc with
  | none => (working, [])
  | some f =>
    let res := f working
    if res.type = ResultType.Success then
      (working, [Event.postHookCall working res])
    else
      (AnnotateResult res "received non successful result from post request func",
        [Event.postHookCall working res])

/-- Go `(r *Request) Run(args ...any) *Result`, with the transport drawn
from `env` (the `k`-th call of this logical run uses `env.transport k`) and
an event trace.  `(none, t)` marks the unmodelled divergent regime reached
only when a retry is taken with a non-positive iteration counter. -/
def runE (env : Env) (r : Request) (k : Nat) (args : Args) : Option Result × List Event :=
  if r.url = "" then
    (some { type := ResultType.Error, description := "url is required" }, [])
  else if r.method = "" then
    (some { type := ResultType.Error, description := "method is required" }, [])
  else
    match preStage r with
    | (some early, t0) => (some early, t0)
    | (none, t0) =>
      match env.transport k with
      | Except.error e =>
        (some { type := ResultType.Error
                description := "received an error while performing request: " ++ e },
          t0 ++ [Event.transportCall k])
      | Except.ok response =>
        match response.bodyBytes with
        | Except.error e =>
          (some { type := ResultType.Error
                  description := "received an error while reading body: " ++ e },
            t0 ++ [Event.transportCall k])
        | Except.ok bs =>
          let defaultRes : Result :=
            if r.assertions.length = 0 then
              { type := ResultType.NoTest, downStreamArgs := some [] }
            else
              { type := ResultType.Success, downStreamArgs := some [] }
          let (ares, ta) := checkAssertions response r.assertions
          if ares.type = ResultType.Success then
            match r.testFunc with
            | some tf =>
              let tres := tf response args
              if tres.type = ResultType.Repeat then
                if r.iterations - 1 = 0 then
                  (some { type := ResultType.Failure
                          description := "failed after running out of iterations" },
                    t0 ++ [Event.transportCall k] ++ ta ++ [Event.testCall tres])
                else if h : 0 < r.iterations - 1 then
                  let (res', t') := runE env
                    { r with responseBody := some bs, iterations := r.iterations - 1 }
                    (k + 1) [tres.downStreamArgs]
                  (res', t0 ++ [Event.transportCall k] ++ ta ++
                    [Event.testCall tres, Event.sleepEv r.sleep] ++ t')
                else
                  (none, t0 ++ [Event.transportCall k] ++ ta ++
                    [Event.testCall tres, Event.sleepEv r.sleep])
              else
                let (fin, tp) := postStage r tres
                (some fin, t0 ++ [Event.transportCall k] ++ ta ++
                  [Event.testCall tres] ++ tp)
            | none =>
              let (fin, tp) := postStage r defaultRes
              (some fin, t0 ++ [Event.transportCall k] ++ ta ++ tp)
          else
            (some (AnnotateResult ares "assertion failed"),
              t0 ++ [Event.transportCall k] ++ ta)
termination_by r.iterations.toNat
decreasing_by
  omega

/-- Go `RequestGroup`. -/
structure RequestGroup where
  id : String := ""
  requests : List Request := []

/-- Go `(rq *RequestGroup) Id(id string)`. -/
def RequestGroup.Id (rq : RequestGroup) (id : String) : RequestGroup :=
  { rq with id := id }

/-- Go `(rq *RequestGroup) AddRequest(r *Request)`. -/
def RequestGroup.AddRequest (rq : RequestGroup) (r : Request) : RequestGroup :=
  { rq with requests := rq.requests ++ [r] }

/-- The loop of `RequestGroup.Run`: run the members in order (the member at
overall position `i` uses environment `envs i` for its own transport), stop
at the first whose result kind is `Skip`.  Besides the Go return value it
also yields the number of members actually executed. -/
def groupRunAux (envs : Nat → Env) : Nat → List Request → Option Result × Nat
  | _, [] => (some { type := ResultType.Success }, 0)
  | i, r :: rest =>
    match (runE (envs i) r 0 []).1 with
    | none => (none, 1)
    | some res =>
      if res.type = ResultType.Skip then
        (some { type := ResultType.Skip
                description := "Skipped caused by request " ++ r.id }, 1)
      else
        let (res', n) := groupRunAux envs (i + 1) rest
        (res', n + 1)

/-- Go `(rq *RequestGroup) Run() *Result`, plus the number of member
requests executed. -/
def RequestGroup.Run (rq : RequestGroup) (envs : Nat → Env) : Option Result × Nat :=
  groupRunAux envs 0 rq.requests

/-- One builder call of the configuration surface, as data: each
constructor records the arguments of the corresponding chained setter. -/
inductive BuilderStep where
  | id (s : String)
  | body (b : Option (List Nat))
  | header (key value : String)
  | basicAuth (u p : String)
  | sleep (d : Nat)
  | timeout (t : Int)
  | iterations (n : Int)
  | test (f : Response → Args → Result)
  | preRequest (f : Unit → Result)
  | postRequest (f : Result → Result)
  | statusCode (n : Int)
  | assertion (a : Response → Result)

/-- Apply one builder call to a request. -/
def applyStep (r : Request) : BuilderStep → Request
  | BuilderStep.id s => r.Id s
  | BuilderStep.body b => r.Body b
  | BuilderStep.header key value => r.Header key value
  | BuilderStep.basicAuth u p => r.BasicAuth u p
  | BuilderStep.sleep d => r.Sleep d
  | BuilderStep.timeout t => r.Timeout t
  | BuilderStep.iterations n => r.Iterations n
  | BuilderStep.test f => r.Test f
  | BuilderStep.preRequest f => r.PreRequest f
  | BuilderStep.postRequest f => r.PostRequest f
  | BuilderStep.statusCode n => r.StatusCode n
  | BuilderStep.assertion a => r.addAssertion a

/-- The transport of the retry scenario of the spec: the server answers its
`N`-th request (transport call index `N - 1`) with status 200 and every
other request with status 400; every body reads as empty. -/
def repeatEnv (N : Nat) : Env :=
  { transport := fun k =>
      Except.ok { statusCode := if k + 1 = N then 200 else 400
                  bodyBytes := Except.ok [] } }

/-- The test function of the retry scenario: `Success` on status 200,
`Repeat` otherwise. -/
def repeatTF : Response → Args → Result :=
  fun response _ =>
    if response.statusCode = 200 then { type := ResultType.Success }
    else { type := ResultType.Repeat }

/-- The request of the retry scenario, with iteration budget `b`, sleep
interval `sl` and cached response body `rb`. -/
def repeatReq (b : Int) (sl : Nat) (rb : Option (List Nat)) : Request :=
  { url := "http://server"
    method := "GET"
    iterations := b
    sleep := sl
    responseBody := rb
    testFunc := some repeatTF }

/-! ### Branch lemmas for `runE`

One lemma per terminal branch of the `Run` state machine; the claim
theorems below are assembled from these. -/

theorem runE_url_empty (env : Env) (r : Request) (k : Nat) (args : Args)
    (hu : r.url = "") :
    runE env r k args =
      (some { type := ResultType.Error, description := "url is required" }, []) := by
  rw [runE]
  simp [hu]

theorem runE_method_empty (env : Env) (r : Request) (k : Nat) (args : Args)
    (hu : ¬ r.url = "") (hm : r.method = "") :
    runE env r k args =
      (some { type := ResultType.Error, description := "method is required" }, []) := by
  rw [runE]
  simp [hu, hm]

theorem runE_pre_fail (env : Env) (r : Request) (k : Nat) (args : Args)
    (f : Unit → Result)
    (hu : ¬ r.url = "") (hm : ¬ r.method = "")
    (hf : r.preRequestFunc = some f)
    (hns : ¬ (f ()).type = ResultType.Success) :
    runE env r k args =
      (some (AnnotateResult (f ()) "received non successful result from pre request func"),
        [Event.preHook (f ())]) := by
  rw [runE]
  simp [hu, hm, preStage, hf, hns]

theorem runE_transport_error (env : Env) (r : Request) (k : Nat) (args : Args)
    (t0 : List Event) (e : String)
    (hu : ¬ r.url = "") (hm : ¬ r.method = "")
    (hpre : preStage r = (none, t0))
    (htr : env.transport k = Except.error e) :
    runE env r k args =
      (some { type := ResultType.Error
              description := "received an error while performing request: " ++ e },
        t0 ++ [Event.transportCall k]) := by
  rw [runE]
  simp [hu, hm, hpre, htr]

theorem runE_body_error (env : Env) (r : Request) (k : Nat) (args : Args)
    (t0 : List Event) (response : Response) (e : String)
    (hu : ¬ r.url = "") (hm : ¬ r.method = "")
    (hpre : preStage r = (none, t0))
    (htr : env.transport k = Except.ok response)
    (hbs : response.bodyBytes = Except.error e) :
    runE env r k args =
      (some { type := ResultType.Error
              description := "received an error while reading body: " ++ e },
        t0 ++ [Event.transportCall k]) := by
  rw [runE]
  simp [hu, hm, hpre, htr, hbs]

theorem runE_assert_fail (env : Env) (r : Request) (k : Nat) (args : Args)
    (t0 ta : List Event) (response : Response) (bs : List Nat) (ares : Result)
    (hu : ¬ r.url = "") (hm : ¬ r.method = "")
    (hpre : preStage r = (none, t0))
    (htr : env.transport k = Except.ok response)
    (hbs : response.bodyBytes = Except.ok bs)
    (hca : checkAssertions response r.assertions = (ares, ta))
    (hns : ¬ ares.type = ResultType.Success) :
    runE env r k args =
      (some (AnnotateResult ares "assertion failed"),
        t0 ++ [Event.transportCall k] ++ ta) := by
  rw [runE]
  simp [hu, hm, hpre, htr, hbs, hca, hns]

theorem runE_no_test (env : Env) (r : Request) (k : Nat) (args : Args)
    (t0 ta : List Event) (response : Response) (bs : List Nat) (ares : Result)
    (hu : ¬ r.url = "") (hm : ¬ r.method = "")
    (hpre : preStage r = (none, t0))
    (htr : env.transport k = Except.ok response)
    (hbs : response.bodyBytes = Except.ok bs)
    (hca : checkAssertions response r.assertions = (ares, ta))
    (has : ares.type = ResultType.Success)
    (htf : r.testFunc = none) :
    runE env r k args =
      (some (postStage r (if r.assertions.length = 0 then
          { type := ResultType.NoTest, downStreamArgs := some [] }
        else
          { type := ResultType.Success, downStreamArgs := some [] })).1,
        t0 ++ [Event.transportCall k] ++ ta ++
          (postStage r (if r.assertions.length = 0 then
            { type := ResultType.NoTest, downStreamArgs := some [] }
          else
            { type := ResultType.Success, downStreamArgs := some [] })).2) := by
  rw [runE]
  rcases hps : postStage r (if r.assertions.length = 0 then
      { type := ResultType.NoTest, downStreamArgs := some [] }
    else
      { type := ResultType.Success, downStreamArgs := some [] }) with ⟨fin, tp⟩
  by_cases hz : r.assertions.length = 0 <;>
    simp [hu, hm, hpre, htr, hbs, hca, has, htf, hz] <;>
    simp [hz] at hps <;>
    simp [hps]

theorem runE_test_done (env : Env) (r : Request) (k : Nat) (args : Args)
    (t0 ta : List Event) (response : Response) (bs : List Nat) (ares : Result)
    (tf : Response → Args → Result)
    (hu : ¬ r.url = "") (hm : ¬ r.method = "")
    (hpre : preStage r = (none, t0))
    (htr : env.transport k = Except.ok response)
    (hbs : response.bodyBytes = Except.ok bs)
    (hca : checkAssertions response r.assertions = (ares, ta))
    (has : ares.type = ResultType.Success)
    (htf : r.testFunc = some tf)
    (hnr : ¬ (tf response args).type = ResultType.Repeat) :
    runE env r k args =
      (some (postStage r (tf response args)).1,
        t0 ++ [Event.transportCall k] ++ ta ++
          [Event.testCall (tf response args)] ++ (postStage r (tf response args)).2) := by
  rw [runE]
  rcases hps : postStage r (tf response args) with ⟨fin, tp⟩
  simp [hu, hm, hpre, htr, hbs, hca, has, htf, hnr, hps]

theorem runE_repeat_exhaust (env : Env) (r : Request) (k : Nat) (args : Args)
    (t0 ta : List Event) (response : Response) (bs : List Nat) (ares : Result)
    (tf : Response → Args → Result)
    (hu : ¬ r.url = "") (hm : ¬ r.method = "")
    (hpre : preStage r = (none, t0))
    (htr : env.transport k = Except.ok response)
    (hbs : response.bodyBytes = Except.ok bs)
    (hca : checkAssertions response r.assertions = (ares, ta))
    (has : ares.type = ResultType.Success)
    (htf : r.testFunc = some tf)
    (hrep : (tf response args).type = ResultType.Repeat)
    (hit : r.iterations - 1 = 0) :
    runE env r k args =
      (some { type := ResultType.Failure
              description := "failed after running out of iterations" },
        t0 ++ [Event.transportCall k] ++ ta ++ [Event.testCall (tf response args)]) := by
  rw [runE]
  simp [hu, hm, hpre, htr, hbs, hca, has, htf, hrep, hit]

theorem runE_repeat_recurse (env : Env) (r : Request) (k : Nat) (args : Args)
    (t0 ta t' : List Event) (response : Response) (bs : List Nat) (ares : Result)
    (res' : Option Result)
    (tf : Response → Args → Result)
    (hu : ¬ r.url = "") (hm : ¬ r.method = "")
    (hpre : preStage r = (none, t0))
    (htr : env.transport k = Except.ok response)
    (hbs : response.bodyBytes = Except.ok bs)
    (hca : checkAssertions response r.assertions = (ares, ta))
    (has : ares.type = ResultType.Success)
    (htf : r.testFunc = some tf)
    (hrep : (tf response args).type = ResultType.Repeat)
    (hit : 0 < r.iterations - 1)
    (hrec : runE env { r with responseBody := some bs, iterations := r.iterations - 1 }
      (k + 1) [(tf response args).downStreamArgs] = (res', t')) :
    runE env r k args =
      (res', t0 ++ [Event.transportCall k] ++ ta ++
        [Event.testCall (tf response args), Event.sleepEv r.sleep] ++ t') := by
  rw [runE]
  have hit' : ¬ r.iterations - 1 = 0 := by omega
  simp only [htf] at hrec
  simp [hu, hm, hpre, htr, hbs, hca, has, htf, hrep, hit, hit', hrec]

theorem runE_repeat_diverge (env : Env) (r : Request) (k : Nat) (args : Args)
    (t0 ta : List Event) (response : Response) (bs : List Nat) (ares : Result)
    (tf : Response → Args → Result)
    (hu : ¬ r.url = "") (hm : ¬ r.method = "")
    (hpre : preStage r = (none, t0))
    (htr : env.transport k = Except.ok response)
    (hbs : response.bodyBytes = Except.ok bs)
    (hca : checkAssertions response r.assertions = (ares, ta))
    (has : ares.type = ResultType.Success)
    (htf : r.testFunc = some tf)
    (hrep : (tf response args).type = ResultType.Repeat)
    (hit : ¬ r.iterations - 1 = 0) (hit2 : ¬ 0 < r.iterations - 1) :
    runE env r k args =
      (none, t0 ++ [Event.transportCall k] ++ ta ++
        [Event.testCall (tf response args), Event.sleepEv r.sleep]) := by
  rw [runE]
  simp [hu, hm, hpre, htr, hbs, hca, has, htf, hrep, hit, hit2]

/-! ### Helper lemmas on the stages -/

theorem preStage_of_none (r : Request) (h : r.preRequestFunc = none) :
    preStage r = (none, []) := by
  simp [preStage, h]

theorem preStage_of_success (r : Request) (f : Unit → Result)
    (hf : r.preRequestFunc = some f) (hs : (f ()).type = ResultType.Success) :
    preStage r = (none, [Event.preHook (f ())]) := by
  simp [preStage, hf, hs]

theorem postStage_of_none (r : Request) (w : Result)
    (h : r.postRequestFunc = none) : postStage r w = (w, []) := by
  simp [postStage, h]

theorem postStage_of_some (r : Request) (w : Result) (f : Result → Result)
    (h : r.postRequestFunc = some f) :
    postStage r w =
      (if (f w).type = ResultType.Success then w
        else AnnotateResult (f w) "received non successful result from post request func",
        [Event.postHookCall w (f w)]) := by
  by_cases hs : (f w).type = ResultType.Success <;> simp [postStage, h, hs]

/-- The working result of `postStage` keeps a non-`Repeat` kind whenever the
post hook itself never produces a `Repeat`-kinded result. -/
theorem postStage_no_repeat (r : Request) (w : Result)
    (hw : ¬ w.type = ResultType.Repeat)
    (hpost : ∀ f x, r.postRequestFunc = some f → ¬ (f x).type = ResultType.Repeat) :
    ¬ (postStage r w).1.type = ResultType.Repeat := by
  rcases hpf : r.postRequestFunc with _ | f
  · simpa [postStage_of_none r w hpf] using hw
  · rw [postStage_of_some r w f hpf]
    by_cases hs : (f w).type = ResultType.Success
    · simpa [hs] using hw
    · simpa [hs, AnnotateResult] using hpost f w hpf

/-- The result of `checkAssertions` is either the fresh all-passed
`Success` result or the result of one of the registered assertions. -/
theorem checkAssertions_result (response : Response) :
    ∀ as : List (Response → Result),
      (checkAssertions response as).1 = { type := ResultType.Success } ∨
      ∃ a ∈ as, (checkAssertions response as).1 = a response
  | [] => Or.inl rfl
  | a :: rest => by
    by_cases hs : (a response).type = ResultType.Success
    · rcases hca : checkAssertions response rest with ⟨r2, t2⟩
      rcases checkAssertions_result response rest with h | ⟨b, hb, h⟩
      · left
        simpa [checkAssertions, hs, hca] using by rw [hca] at h; exact h
      · right
        refine ⟨b, by simp [hb], ?_⟩
        rw [hca] at h
        simpa [checkAssertions, hs, hca] using h
    · right
      exact ⟨a, by simp, by simp [checkAssertions, hs]⟩

/-- Assertions are evaluated in registration order and the first
non-`Success` result short-circuits: the assertions before it are all
invoked (in order), it is invoked, and nothing after it is invoked. -/
theorem checkAssertions_firstFail (response : Response)
    (a : Response → Result) (as2 : List (Response → Result)) :
    ∀ as1 : List (Response → Result),
      (∀ b ∈ as1, (b response).type = ResultType.Success) →
      ¬ (a response).type = ResultType.Success →
      checkAssertions response (as1 ++ a :: as2) =
        (a response,
          as1.map (fun b => Event.assertionCall (b response)) ++
            [Event.assertionCall (a response)])
  | [], _, hfail => by simp [checkAssertions, hfail]
  | b :: rest, hok, hfail => by
    have hb : (b response).type = ResultType.Success := hok b (by simp)
    have ih := checkAssertions_firstFail response a as2 rest
      (fun c hc => hok c (by simp [hc])) hfail
    simp [checkAssertions, hb, ih]

/-- When every registered assertion passes, `checkAssertions` returns the
fresh `Success` result and the trace of all assertions in order. -/
theorem checkAssertions_allPass (response : Response) :
    ∀ as : List (Response → Result),
      (∀ b ∈ as, (b response).type = ResultType.Success) →
      checkAssertions response as =
        ({ type := ResultType.Success },
          as.map (fun b => Event.assertionCall (b response)))
  | [], _ => rfl
  | b :: rest, hok => by
    have hb : (b response).type = ResultType.Success := hok b (by simp)
    have ih := checkAssertions_allPass response rest
      (fun c hc => hok c (by simp [hc]))
    simp [checkAssertions, hb, ih]

/-! ### Trace bookkeeping -/

theorem postHookCount_append (s t : List Event) :
    postHookCount (s ++ t) = postHookCount s + postHookCount t := by
  simp [postHookCount, List.countP_append]

theorem postHookCount_preStage (r : Request) (x : Option Result) (t0 : List Event)
    (h : preStage r = (x, t0)) : postHookCount t0 = 0 := by
  rcases hpf : r.preRequestFunc with _ | f
  · simp [preStage, hpf] at h
    rw [h.2]
    rfl
  · by_cases hs : (f ()).type = ResultType.Success <;>
      simp [preStage, hpf, hs] at h <;> rw [← h.2] <;> rfl

theorem postHookCount_checkAssertions (response : Response) :
    ∀ (as : List (Response → Result)) (ares : Result) (ta : List Event),
      checkAssertions response as = (ares, ta) → postHookCount ta = 0
  | [], ares, ta, h => by
    simp [checkAssertions] at h
    rw [h.2]
    rfl
  | a :: rest, ares, ta, h => by
    by_cases hs : (a response).type = ResultType.Success
    · rcases hca : checkAssertions response rest with ⟨r2, t2⟩
      simp [checkAssertions, hs, hca] at h
      have ih := postHookCount_checkAssertions response rest r2 t2 hca
      rw [← h.2]
      simpa [postHookCount, List.countP_cons] using ih
    · simp [checkAssertions, hs] at h
      rw [← h.2]
      rfl

/-- Once validation and the pre-hook stage have passed, the trace always
records the transport call: the run proceeds to `perform()`. -/
theorem runE_trace_shape (env : Env) (r : Request) (k : Nat) (args : Args)
    (t0 : List Event)
    (hu : ¬ r.url = "") (hm : ¬ r.method = "")
    (hpre : preStage r = (none, t0)) :
    ∃ rest, (runE env r k args).2 = t0 ++ Event.transportCall k :: rest := by
  rcases htr : env.transport k with e | response
  · rw [runE_transport_error env r k args t0 e hu hm hpre htr]
    exact ⟨[], rfl⟩
  · rcases hbb : response.bodyBytes with e | bs
    · rw [runE_body_error env r k args t0 response e hu hm hpre htr hbb]
      exact ⟨[], rfl⟩
    · rcases hca : checkAssertions response r.assertions with ⟨ares, ta⟩
      by_cases has : ares.type = ResultType.Success
      · rcases htf : r.testFunc with _ | tf
        · rw [runE_no_test env r k args t0 ta response bs ares hu hm hpre htr hbb hca has htf]
          refine ⟨ta ++ (postStage r (if r.assertions.length = 0 then
            { type := ResultType.NoTest, downStreamArgs := some [] }
          else
            { type := ResultType.Success, downStreamArgs := some [] })).2, by simp⟩
        · by_cases hrep : (tf response args).type = ResultType.Repeat
          · by_cases hz : r.iterations - 1 = 0
            · rw [runE_repeat_exhaust env r k args t0 ta response bs ares tf hu hm hpre
                htr hbb hca has htf hrep hz]
              exact ⟨ta ++ [Event.testCall (tf response args)], by simp⟩
            · by_cases hpos : 0 < r.iterations - 1
              · rcases hrec : runE env
                    { r with responseBody := some bs, iterations := r.iterations - 1 }
                    (k + 1) [(tf response args).downStreamArgs] with ⟨res', t'⟩
                rw [runE_repeat_recurse env r k args t0 ta t' response bs ares res' tf
                  hu hm hpre htr hbb hca has htf hrep hpos hrec]
                exact ⟨ta ++ Event.testCall (tf response args) ::
                  Event.sleepEv r.sleep :: t', by simp⟩
              · rw [runE_repeat_diverge env r k args t0 ta response bs ares tf hu hm hpre
                  htr hbb hca has htf hrep hz hpos]
                exact ⟨ta ++ [Event.testCall (tf response args), Event.sleepEv r.sleep],
                  by simp⟩
          · rw [runE_test_done env r k args t0 ta response bs ares tf hu hm hpre
              htr hbb hca has htf hrep]
            exact ⟨ta ++ [Event.testCall (tf response args)] ++
              (postStage r (tf response args)).2, by simp⟩
      · rw [runE_assert_fail env r k args t0 ta response bs ares hu hm hpre htr hbb hca has]
        exact ⟨ta, by simp⟩

/-! ### The retry scenario -/

/-- In the retry scenario, an attempt whose transport call is the server's
`N`-th request ends the run with `Success`, whatever the remaining budget. -/
theorem repeat_run_hit (N : Nat) (b : Int) (k : Nat) (rb : Option (List Nat))
    (args : Args) (sl : Nat) (hk : k + 1 = N) :
    (runE (repeatEnv N) (repeatReq b sl rb) k args).1 =
      some { type := ResultType.Success } := by
  have htr : (repeatEnv N).transport k =
      Except.ok { statusCode := 200, bodyBytes := Except.ok [] } := by
    simp [repeatEnv, hk]
  have htres : repeatTF { statusCode := 200, bodyBytes := Except.ok [] } args =
      { type := ResultType.Success } := by
    simp [repeatTF]
  rw [runE_test_done (repeatEnv N) (repeatReq b sl rb) k args [] []
    { statusCode := 200, bodyBytes := Except.ok [] } [] { type := ResultType.Success }
    repeatTF (by simp [repeatReq]) (by simp [repeatReq])
    (preStage_of_none _ rfl) htr rfl rfl rfl rfl (by rw [htres]; decide)]
  rw [htres, postStage_of_none _ _ rfl]

/-- The retry scenario, in general position: starting at transport call `k`
with budget `b ≥ 1`, the run succeeds exactly when the `N`-th server request
falls within the remaining budget, and otherwise fails with the exhaustion
failure. -/
theorem repeat_run (N : Nat) :
    ∀ b : Nat, 1 ≤ b → ∀ (k : Nat) (rb : Option (List Nat)) (args : Args) (sl : Nat),
      (runE (repeatEnv N) (repeatReq (b : Int) sl rb) k args).1 =
        (if k + 1 ≤ N ∧ N ≤ k + b then some { type := ResultType.Success }
         else some { type := ResultType.Failure
                     description := "failed after running out of iterations" }) := by
  intro b hb
  induction b, hb using Nat.le_induction with
  | base =>
    intro k rb args sl
    by_cases hk : k + 1 = N
    · rw [repeat_run_hit N ((1 : Nat) : Int) k rb args sl hk, if_pos (by omega)]
    · have htr : (repeatEnv N).transport k =
          Except.ok { statusCode := 400, bodyBytes := Except.ok [] } := by
        simp [repeatEnv, hk]
      have htres : repeatTF { statusCode := 400, bodyBytes := Except.ok [] } args =
          { type := ResultType.Repeat } := by
        simp [repeatTF]
      rw [runE_repeat_exhaust (repeatEnv N) (repeatReq ((1 : Nat) : Int) sl rb) k args [] []
        { statusCode := 400, bodyBytes := Except.ok [] } [] { type := ResultType.Success }
        repeatTF (by simp [repeatReq]) (by simp [repeatReq])
        (preStage_of_none _ rfl) htr rfl rfl rfl rfl (by rw [htres])
        (by simp [repeatReq])]
      rw [if_neg (by omega)]
  | succ b hb ih =>
    intro k rb args sl
    by_cases hk : k + 1 = N
    · rw [repeat_run_hit N (((b : Nat) + 1 : Nat) : Int) k rb args sl hk, if_pos (by omega)]
    · have htr : (repeatEnv N).transport k =
          Except.ok { statusCode := 400, bodyBytes := Except.ok [] } := by
        simp [repeatEnv, hk]
      have htres : repeatTF { statusCode := 400, bodyBytes := Except.ok [] } args =
          { type := ResultType.Repeat } := by
        simp [repeatTF]
      have hreq : ({ repeatReq (((b : Nat) + 1 : Nat) : Int) sl rb with
          responseBody := some ([] : List Nat),
          iterations := (repeatReq (((b : Nat) + 1 : Nat) : Int) sl rb).iterations - 1 } : Request) =
          repeatReq (b : Int) sl (some []) := by
        simp [repeatReq, Request.mk.injEq]
      rcases hrec : runE (repeatEnv N)
          { repeatReq (((b : Nat) + 1 : Nat) : Int) sl rb with
            responseBody := some ([] : List Nat),
            iterations := (repeatReq (((b : Nat) + 1 : Nat) : Int) sl rb).iterations - 1 }
          (k + 1) [(repeatTF { statusCode := 400, bodyBytes := Except.ok [] } args).downStreamArgs]
          with ⟨res', t'⟩
      rw [runE_repeat_recurse (repeatEnv N) (repeatReq (((b : Nat) + 1 : Nat) : Int) sl rb)
        k args [] [] t' { statusCode := 400, bodyBytes := Except.ok [] } [] { type := ResultType.Success }
        res' repeatTF (by simp [repeatReq]) (by simp [repeatReq])
        (preStage_of_none _ rfl) htr rfl rfl rfl rfl (by rw [htres])
        (by simp [repeatReq]; omega) hrec]
      rw [hreq] at hrec
      have hres := ih (k + 1) (some []) [(repeatTF { statusCode := 400, bodyBytes := Except.ok [] } args).downStreamArgs] sl
      rw [hrec] at hres
      dsimp only at hres ⊢
      rw [hres]
      have hiff : (k + 1 + 1 ≤ N ∧ N ≤ k + 1 + b) ↔ (k + 1 ≤ N ∧ N ≤ k + (b + 1)) := by
        omega
      simp only [hiff]

/-! ### Totality of `Run` on positive budgets -/

/-- With a positive iteration budget the run always terminates with a
result, and that result is never `Repeat`-kinded provided neither the
hooks nor the assertions themselves produce a `Repeat`-kinded result. -/
theorem runE_total :
    ∀ (n : Nat) (env : Env) (r : Request) (k : Nat) (args : Args),
      r.iterations.toNat = n → 1 ≤ r.iterations →
      ∃ res t, runE env r k args = (some res, t) ∧
        ((∀ f, r.preRequestFunc = some f → ¬ (f ()).type = ResultType.Repeat) →
         (∀ a ∈ r.assertions, ∀ response, ¬ (a response).type = ResultType.Repeat) →
         (∀ f w, r.postRequestFunc = some f → ¬ (f w).type = ResultType.Repeat) →
         ¬ res.type = ResultType.Repeat) := by
  intro n
  induction n using Nat.strong_induction_on with
  | _ n ih =>
    intro env r k args hn hit
    by_cases hu : r.url = ""
    · exact ⟨_, _, runE_url_empty env r k args hu, fun _ _ _ => by decide⟩
    by_cases hm : r.method = ""
    · exact ⟨_, _, runE_method_empty env r k args hu hm, fun _ _ _ => by decide⟩
    by_cases hpfail : ∃ f, r.preRequestFunc = some f ∧ ¬ (f ()).type = ResultType.Success
    · obtain ⟨f, hpf, hns⟩ := hpfail
      exact ⟨_, _, runE_pre_fail env r k args f hu hm hpf hns,
        fun hp _ _ => by simpa [AnnotateResult] using hp f hpf⟩
    have hpre : ∃ t0, preStage r = (none, t0) := by
      rcases hpf : r.preRequestFunc with _ | f
      · exact ⟨[], preStage_of_none r hpf⟩
      · have hs : (f ()).type = ResultType.Success := by
          by_contra hc
          exact hpfail ⟨f, hpf, hc⟩
        exact ⟨[Event.preHook (f ())], preStage_of_success r f hpf hs⟩
    obtain ⟨t0, hpre⟩ := hpre
    rcases htr : env.transport k with e | response
    · exact ⟨_, _, runE_transport_error env r k args t0 e hu hm hpre htr,
        fun _ _ _ => by simp⟩
    rcases hbb : response.bodyBytes with e | bs
    · exact ⟨_, _, runE_body_error env r k args t0 response e hu hm hpre htr hbb,
        fun _ _ _ => by simp⟩
    rcases hca : checkAssertions response r.assertions with ⟨ares, ta⟩
    by_cases has : ares.type = ResultType.Success
    · rcases htf : r.testFunc with _ | tf
      · refine ⟨_, _, runE_no_test env r k args t0 ta response bs ares
          hu hm hpre htr hbb hca has htf, fun _ _ hpost => ?_⟩
        refine postStage_no_repeat r _ ?_ hpost
        split <;> decide
      · by_cases hrep : (tf response args).type = ResultType.Repeat
        · by_cases hz : r.iterations - 1 = 0
          · exact ⟨_, _, runE_repeat_exhaust env r k args t0 ta response bs ares tf
              hu hm hpre htr hbb hca has htf hrep hz, fun _ _ _ => by decide⟩
          · have hpos : 0 < r.iterations - 1 := by omega
            have hlt : (r.iterations - 1).toNat < n := by omega
            obtain ⟨res, t', hrec, hnr⟩ := ih _ hlt env
              { r with responseBody := some bs, iterations := r.iterations - 1 }
              (k + 1) [(tf response args).downStreamArgs] rfl
              (show (1 : Int) ≤ r.iterations - 1 by omega)
            refine ⟨res, _, runE_repeat_recurse env r k args t0 ta t' response bs ares
              (some res) tf hu hm hpre htr hbb hca has htf hrep hpos hrec,
              fun hp ha hpost => ?_⟩
            exact hnr hp ha hpost
        · refine ⟨_, _, runE_test_done env r k args t0 ta response bs ares tf
            hu hm hpre htr hbb hca has htf hrep, fun _ _ hpost => ?_⟩
          exact postStage_no_repeat r _ hrep hpost
    · refine ⟨_, _, runE_assert_fail env r k args t0 ta response bs ares
        hu hm hpre htr hbb hca has, fun _ ha _ => ?_⟩
      rcases checkAssertions_result response r.assertions with hfresh | ⟨a, hmem, hval⟩
      · rw [hca] at hfresh
        dsimp only at hfresh
        exact absurd (by rw [hfresh]) has
      · rw [hca] at hval
        dsimp only at hval
        simpa [AnnotateResult, hval] using ha a hmem response

/-! ### The group loop -/

theorem groupRunAux_skip (envs : Nat → Env) (rskip : Request) (post : List Request) :
    ∀ (pre : List Request) (i : Nat),
      (∀ j (h : j < pre.length),
        ∃ res, (runE (envs (i + j)) (pre.get ⟨j, h⟩) 0 []).1 = some res ∧
          ¬ res.type = ResultType.Skip) →
      (∃ res, (runE (envs (i + pre.length)) rskip 0 []).1 = some res ∧
        res.type = ResultType.Skip) →
      groupRunAux envs i (pre ++ rskip :: post) =
        (some { type := ResultType.Skip
                description := "Skipped caused by request " ++ rskip.id },
          pre.length + 1)
  | [], i, _, hskip => by
    obtain ⟨res, hres, hty⟩ := hskip
    have hres' : (runE (envs i) rskip 0 []).1 = some res := hres
    simp [groupRunAux, hres', hty]
  | r :: rest, i, hall, hskip => by
    obtain ⟨res0, hres0, hty0⟩ := hall 0 (by simp)
    have hres0' : (runE (envs i) r 0 []).1 = some res0 := hres0
    have ih := groupRunAux_skip envs rskip post rest (i + 1)
      (fun j hj => by
        have h' : j + 1 < (r :: rest).length := by simpa using Nat.succ_lt_succ hj
        have hthis := hall (j + 1) h'
        have hidx : i + (j + 1) = i + 1 + j := by omega
        rw [hidx] at hthis
        exact hthis)
      (by
        obtain ⟨res, hres, hty⟩ := hskip
        refine ⟨res, ?_, hty⟩
        have hidx : i + 1 + rest.length = i + (r :: rest).length := by
          simp [List.length_cons]
          omega
        rw [hidx]
        exact hres)
    simp [groupRunAux, hres0', hty0, ih]

theorem groupRunAux_success (envs : Nat → Env) :
    ∀ (l : List Request) (i : Nat),
      (∀ j (h : j < l.length),
        ∃ res, (runE (envs (i + j)) (l.get ⟨j, h⟩) 0 []).1 = some res ∧
          ¬ res.type = ResultType.Skip) →
      groupRunAux envs i l = (some { type := ResultType.Success }, l.length)
  | [], _, _ => rfl
  | r :: rest, i, hall => by
    obtain ⟨res0, hres0, hty0⟩ := hall 0 (by simp)
    have hres0' : (runE (envs i) r 0 []).1 = some res0 := hres0
    have ih := groupRunAux_success envs rest (i + 1)
      (fun j hj => by
        have h' : j + 1 < (r :: rest).length := by simpa using Nat.succ_lt_succ hj
        have hthis := hall (j + 1) h'
        have hidx : i + (j + 1) = i + 1 + j := by omega
        rw [hidx] at hthis
        exact hthis)
    simp [groupRunAux, hres0', hty0, ih]

/-! ### Builder-surface helpers -/

theorem applyStep_iterations (r : Request) (s : BuilderStep)
    (h : 1 ≤ r.iterations) : 1 ≤ (applyStep r s).iterations := by
  cases s with
  | id s => exact h
  | body b => exact h
  | header key value => exact h
  | basicAuth u p => exact h
  | sleep d => exact h
  | timeout t => exact h
  | iterations n =>
    by_cases hn : 1 ≤ n
    · simp [applyStep, Request.Iterations, hn]
    · simpa [applyStep, Request.Iterations, hn] using h
  | test f => exact h
  | preRequest f => exact h
  | postRequest f => exact h
  | statusCode n => exact h
  | assertion a => exact h

theorem foldl_applyStep_iterations (steps : List BuilderStep) :
    ∀ r : Request, 1 ≤ r.iterations → 1 ≤ (steps.foldl applyStep r).iterations := by
  induction steps with
  | nil => exact fun r h => h
  | cons s rest ih => exact fun r h => ih _ (applyStep_iterations r s h)

/-! ### The claims -/

/-- C2: validation of `Run`.  For every Request with empty url, `Run`
returns an `Error` result with description "url is required" regardless of
the method field; for every Request with non-empty url and empty method it
returns `Error` with "method is required".  The url check comes first, and
in both cases the event trace is empty: no hook runs and no transport call
occurs. -/
theorem claim_C2 (env : Env) (r : Request) (k : Nat) (args : Args) :
    (r.url = "" →
      runE env r k args =
        (some { type := ResultType.Error, description := "url is required" }, [])) ∧
    (¬ r.url = "" → r.method = "" →
      runE env r k args =
        (some { type := ResultType.Error, description := "method is required" }, [])) :=
  ⟨fun hu => runE_url_empty env r k args hu,
   fun hu hm => runE_method_empty env r k args hu hm⟩

/-- C2 witness: both validation errors observed on concrete requests. -/
theorem claim_C2_w :
    runE { transport := fun _ => Except.error "refused" } { method := "GET" } 0 [] =
      (some { type := ResultType.Error, description := "url is required" }, []) ∧
    runE { transport := fun _ => Except.error "refused" } { url := "u" } 0 [] =
      (some { type := ResultType.Error, description := "method is required" }, []) :=
  ⟨(claim_C2 _ _ 0 []).1 rfl, (claim_C2 _ _ 0 []).2 (by decide) rfl⟩

/-- C6: the `Iterations` setter stores `n` when `n ≥ 1` and is a silent
no-op when `n < 1`; consequently every chain of builder calls starting from
`Get` or `Post` keeps an iteration budget of at least 1. -/
theorem claim_C6 :
    (∀ (r : Request) (n : Int), 1 ≤ n → (r.Iterations n).iterations = n) ∧
    (∀ (r : Request) (n : Int), n < 1 → r.Iterations n = r) ∧
    (∀ (uuid url : String) (steps : List BuilderStep),
      1 ≤ (steps.foldl applyStep (Get uuid url)).iterations) ∧
    (∀ (uuid url : String) (steps : List BuilderStep),
      1 ≤ (steps.foldl applyStep (Post uuid url)).iterations) := by
  refine ⟨fun r n hn => by simp [Request.Iterations, hn],
    fun r n hn => by simp [Request.Iterations, show ¬ 1 ≤ n by omega],
    fun uuid url steps => foldl_applyStep_iterations steps _ (le_refl 1),
    fun uuid url steps => foldl_applyStep_iterations steps _ (le_refl 1)⟩

/-- C6 witness: the clamp at concrete values, and a chain containing a
rejected `Iterations 0` call. -/
theorem claim_C6_w :
    ((newRequest "i" "u" "GET").Iterations 7).iterations = 7 ∧
    (Get "i" "u").Iterations 0 = Get "i" "u" ∧
    1 ≤ ([BuilderStep.iterations 0].foldl applyStep (Get "i" "u")).iterations :=
  ⟨claim_C6.1 _ 7 (by decide), claim_C6.2.1 _ 0 (by decide),
   claim_C6.2.2.1 "i" "u" [BuilderStep.iterations 0]⟩

/-- C8: `AnnotateResult(result, p)` returns a new Result whose kind equals
the input kind and whose description is exactly `p ++ ": " ++` the original
description; the embedding is pure, so the input value is untouched. -/
theorem claim_C8 (r : Result) (p : String) :
    (AnnotateResult r p).type = r.type ∧
    (AnnotateResult r p).description = p ++ ": " ++ r.description :=
  ⟨rfl, rfl⟩

/-- C10: `AnnotateResult` does not carry over the input downstream args
(the returned mapping is nil), and hence every result `Run` returns through
the pre-hook, assertion, or post-hook annotation path carries no downstream
args. -/
theorem claim_C10 :
    (∀ (r : Result) (p : String), (AnnotateResult r p).downStreamArgs = none) ∧
    (∀ (env : Env) (r : Request) (k : Nat) (args : Args) (f : Unit → Result),
      ¬ r.url = "" → ¬ r.method = "" → r.preRequestFunc = some f →
      ¬ (f ()).type = ResultType.Success →
      ∀ res, (runE env r k args).1 = some res → res.downStreamArgs = none) ∧
    (∀ (env : Env) (r : Request) (k : Nat) (args : Args) (t0 ta : List Event)
        (response : Response) (bs : List Nat) (ares : Result),
      ¬ r.url = "" → ¬ r.method = "" → preStage r = (none, t0) →
      env.transport k = Except.ok response → response.bodyBytes = Except.ok bs →
      checkAssertions response r.assertions = (ares, ta) →
      ¬ ares.type = ResultType.Success →
      ∀ res, (runE env r k args).1 = some res → res.downStreamArgs = none) ∧
    (∀ (env : Env) (r : Request) (k : Nat) (args : Args) (t0 ta : List Event)
        (response : Response) (bs : List Nat) (ares : Result)
        (tf : Response → Args → Result) (pf : Result → Result),
      ¬ r.url = "" → ¬ r.method = "" → preStage r = (none, t0) →
      env.transport k = Except.ok response → response.bodyBytes = Except.ok bs →
      checkAssertions response r.assertions = (ares, ta) →
      ares.type = ResultType.Success →
      r.testFunc = some tf → ¬ (tf response args).type = ResultType.Repeat →
      r.postRequestFunc = some pf →
      ¬ (pf (tf response args)).type = ResultType.Success →
      ∀ res, (runE env r k args).1 = some res → res.downStreamArgs = none) := by
  refine ⟨fun r p => rfl, ?_, ?_, ?_⟩
  · intro env r k args f hu hm hf hns res hres
    rw [runE_pre_fail env r k args f hu hm hf hns] at hres
    dsimp only at hres
    injection hres with h
    rw [← h]
    rfl
  · intro env r k args t0 ta response bs ares hu hm hpre htr hbs hca hns res hres
    rw [runE_assert_fail env r k args t0 ta response bs ares hu hm hpre htr hbs hca hns] at hres
    dsimp only at hres
    injection hres with h
    rw [← h]
    rfl
  · intro env r k args t0 ta response bs ares tf pf hu hm hpre htr hbs hca has htf hnr hpf hns res hres
    rw [runE_test_done env r k args t0 ta response bs ares tf hu hm hpre htr hbs hca has htf hnr] at hres
    dsimp only at hres
    rw [postStage_of_some r (tf response args) pf hpf] at hres
    dsimp only at hres
    rw [if_neg hns] at hres
    injection hres with h
    rw [← h]
    rfl

/-- C10 witness: the annotated pre-hook failure of a concrete run carries
no downstream args, even though the hook result carried some. -/
theorem claim_C10_w :
    (AnnotateResult { type := ResultType.Failure, downStreamArgs := some [("a", "b")] }
      "received non successful result from pre request func").downStreamArgs = none :=
  claim_C10.2.1 { transport := fun _ => Except.error "x" }
    { url := "u", method := "GET",
      preRequestFunc :=
        some fun _ => { type := ResultType.Failure, downStreamArgs := some [("a", "b")] } }
    0 []
    (fun _ => { type := ResultType.Failure, downStreamArgs := some [("a", "b")] })
    (by decide) (by decide) rfl (by decide) _
    (by rw [runE_pre_fail _ _ 0 []
      (fun _ => { type := ResultType.Failure, downStreamArgs := some [("a", "b")] })
      (by decide) (by decide) rfl (by decide)])

/-- C4: pre-hook short-circuit.  If the pre-request function returns a
non-Success result, Run returns that result annotated with "received non
successful result from pre request func" (same kind, prefixed description)
and the trace shows no transport call; if it returns Success, execution
proceeds to the transport call. -/
theorem claim_C4 (env : Env) (r : Request) (k : Nat) (args : Args) (f : Unit → Result)
    (hu : ¬ r.url = "") (hm : ¬ r.method = "")
    (hf : r.preRequestFunc = some f) :
    (¬ (f ()).type = ResultType.Success →
      runE env r k args =
        (some (AnnotateResult (f ()) "received non successful result from pre request func"),
          [Event.preHook (f ())]) ∧
      transportCount (runE env r k args).2 = 0) ∧
    ((f ()).type = ResultType.Success →
      ∃ rest, (runE env r k args).2 =
        Event.preHook (f ()) :: Event.transportCall k :: rest) := by
  constructor
  · intro hns
    have heq := runE_pre_fail env r k args f hu hm hf hns
    refine ⟨heq, ?_⟩
    rw [heq]
    rfl
  · intro hs
    have hpre := preStage_of_success r f hf hs
    obtain ⟨rest, hrest⟩ := runE_trace_shape env r k args [Event.preHook (f ())] hu hm hpre
    exact ⟨rest, by simpa using hrest⟩

/-- C4 witness: a failing pre-hook of kind Stop short-circuits a concrete
run with no transport call, while a succeeding one reaches the transport. -/
theorem claim_C4_w :
    (runE { transport := fun _ => Except.ok { statusCode := 200, bodyBytes := Except.ok [] } }
        { url := "u", method := "GET",
          preRequestFunc := some fun _ => { type := ResultType.Stop } } 0 [] =
      (some (AnnotateResult { type := ResultType.Stop }
          "received non successful result from pre request func"),
        [Event.preHook { type := ResultType.Stop }]) ∧
      transportCount (runE { transport := fun _ => Except.ok { statusCode := 200, bodyBytes := Except.ok [] } }
        { url := "u", method := "GET",
          preRequestFunc := some fun _ => { type := ResultType.Stop } } 0 []).2 = 0) ∧
    (∃ rest, (runE { transport := fun _ => Except.ok { statusCode := 200, bodyBytes := Except.ok [] } }
        { url := "u", method := "GET",
          preRequestFunc := some fun _ => { type := ResultType.Success } } 0 []).2 =
      Event.preHook { type := ResultType.Success } :: Event.transportCall 0 :: rest) :=
  ⟨(claim_C4 { transport := fun _ => Except.ok { statusCode := 200, bodyBytes := Except.ok [] } }
      { url := "u", method := "GET",
        preRequestFunc := some fun _ => { type := ResultType.Stop } } 0 []
      (fun _ => { type := ResultType.Stop }) (by decide) (by decide) rfl).1 (by decide),
   (claim_C4 { transport := fun _ => Except.ok { statusCode := 200, bodyBytes := Except.ok [] } }
      { url := "u", method := "GET",
        preRequestFunc := some fun _ => { type := ResultType.Success } } 0 []
      (fun _ => { type := ResultType.Success }) (by decide) (by decide) rfl).2 rfl⟩

/-- C3: the assertion stage.  Assertions are evaluated in registration
order; the first non-Success assertion result short-circuits (later
assertions are not invoked) and Run returns it annotated with "assertion
failed"; when all assertions pass and no test function (and no post hook)
is set, Run returns Success if at least one assertion exists and NoTest if
none exist. -/
theorem claim_C3 :
    (∀ (response : Response) (as1 as2 : List (Response → Result)) (a : Response → Result),
      (∀ b ∈ as1, (b response).type = ResultType.Success) →
      ¬ (a response).type = ResultType.Success →
      checkAssertions response (as1 ++ a :: as2) =
        (a response,
          as1.map (fun b => Event.assertionCall (b response)) ++
            [Event.assertionCall (a response)])) ∧
    (∀ (env : Env) (r : Request) (k : Nat) (args : Args) (t0 ta : List Event)
        (response : Response) (bs : List Nat) (ares : Result),
      ¬ r.url = "" → ¬ r.method = "" → preStage r = (none, t0) →
      env.transport k = Except.ok response → response.bodyBytes = Except.ok bs →
      checkAssertions response r.assertions = (ares, ta) →
      ¬ ares.type = ResultType.Success →
      (runE env r k args).1 = some (AnnotateResult ares "assertion failed")) ∧
    (∀ (env : Env) (r : Request) (k : Nat) (args : Args) (t0 ta : List Event)
        (response : Response) (bs : List Nat) (ares : Result),
      ¬ r.url = "" → ¬ r.method = "" → preStage r = (none, t0) →
      env.transport k = Except.ok response → response.bodyBytes = Except.ok bs →
      checkAssertions response r.assertions = (ares, ta) →
      ares.type = ResultType.Success →
      r.testFunc = none → r.postRequestFunc = none →
      (runE env r k args).1 =
        some (if r.assertions.length = 0 then
          { type := ResultType.NoTest, downStreamArgs := some [] }
        else
          { type := ResultType.Success, downStreamArgs := some [] })) := by
  refine ⟨fun response as1 as2 a h1 h2 =>
    checkAssertions_firstFail response a as2 as1 h1 h2, ?_, ?_⟩
  · intro env r k args t0 ta response bs ares hu hm hpre htr hbs hca hns
    rw [runE_assert_fail env r k args t0 ta response bs ares hu hm hpre htr hbs hca hns]
  · intro env r k args t0 ta response bs ares hu hm hpre htr hbs hca has htf hpo
    rw [runE_no_test env r k args t0 ta response bs ares hu hm hpre htr hbs hca has htf]
    dsimp only
    rw [postStage_of_none _ _ hpo]

/-- C3 witness: a request with one failing StatusCode assertion yields the
annotated assertion failure; one with no assertions and no test yields
NoTest. -/
theorem claim_C3_w :
    checkAssertions { statusCode := 400, bodyBytes := Except.ok [] }
        ([(fun _ => { type := ResultType.Success }),
          (fun _ => { type := ResultType.Failure, description := "bad" })] ++
          (fun _ => { type := ResultType.Failure, description := "later" }) :: []) =
      ({ type := ResultType.Failure, description := "bad" },
        [Event.assertionCall { type := ResultType.Success },
          Event.assertionCall { type := ResultType.Failure, description := "bad" }]) ∧
    (runE { transport := fun _ => Except.ok { statusCode := 200, bodyBytes := Except.ok [] } }
        { url := "u", method := "GET" } 0 []).1 =
      some { type := ResultType.NoTest, downStreamArgs := some [] } := by
  constructor
  · have h := claim_C3.1 { statusCode := 400, bodyBytes := Except.ok [] }
      [(fun _ => { type := ResultType.Success })]
      []
      (fun _ => { type := ResultType.Failure, description := "bad" })
      (by intro b hb; simp at hb; rw [hb]) (by decide)
    simpa using h
  · have h := claim_C3.2.2 { transport := fun _ => Except.ok { statusCode := 200, bodyBytes := Except.ok [] } }
      { url := "u", method := "GET" } 0 [] [] []
      { statusCode := 200, bodyBytes := Except.ok [] } [] { type := ResultType.Success }
      (by decide) (by decide) rfl rfl rfl rfl rfl rfl rfl
    simpa using h

/-- C5: the post-request hook contract.  On the working (non-retry) path the
hook is invoked exactly once, with the test function's exact result (or the
assertion-stage default when no test function is set); a non-Success hook
result replaces the working result, annotated with "received non successful
result from post request func".  The hook is never invoked on a Repeat
outcome (neither on the exhaustion failure nor on the retrying attempt
itself), nor on either validation error (empty url, empty method), nor on
pre-hook failures, transport errors, body-read errors or assertion
failures. -/
theorem claim_C5 :
    (∀ (env : Env) (r : Request) (k : Nat) (args : Args) (t0 ta : List Event)
        (response : Response) (bs : List Nat) (ares : Result)
        (tf : Response → Args → Result) (pf : Result → Result),
      ¬ r.url = "" → ¬ r.method = "" → preStage r = (none, t0) →
      env.transport k = Except.ok response → response.bodyBytes = Except.ok bs →
      checkAssertions response r.assertions = (ares, ta) →
      ares.type = ResultType.Success →
      r.testFunc = some tf → ¬ (tf response args).type = ResultType.Repeat →
      r.postRequestFunc = some pf →
      runE env r k args =
        (some (if (pf (tf response args)).type = ResultType.Success then tf response args
          else AnnotateResult (pf (tf response args))
            "received non successful result from post request func"),
          t0 ++ [Event.transportCall k] ++ ta ++
            [Event.testCall (tf response args),
              Event.postHookCall (tf response args) (pf (tf response args))]) ∧
      postHookCount (runE env r k args).2 = 1) ∧
    (∀ (env : Env) (r : Request) (k : Nat) (args : Args) (t0 ta : List Event)
        (response : Response) (bs : List Nat) (ares : Result) (pf : Result → Result),
      ¬ r.url = "" → ¬ r.method = "" → preStage r = (none, t0) →
      env.transport k = Except.ok response → response.bodyBytes = Except.ok bs →
      checkAssertions response r.assertions = (ares, ta) →
      ares.type = ResultType.Success →
      r.testFunc = none → r.postRequestFunc = some pf →
      ∀ d, d = (if r.assertions.length = 0 then
          ({ type := ResultType.NoTest, downStreamArgs := some [] } : Result)
        else { type := ResultType.Success, downStreamArgs := some [] }) →
      runE env r k args =
        (some (if (pf d).type = ResultType.Success then d
          else AnnotateResult (pf d) "received non successful result from post request func"),
          t0 ++ [Event.transportCall k] ++ ta ++ [Event.postHookCall d (pf d)])) ∧
    (∀ (env : Env) (r : Request) (k : Nat) (args : Args) (t0 ta : List Event)
        (response : Response) (bs : List Nat) (ares : Result)
        (tf : Response → Args → Result),
      ¬ r.url = "" → ¬ r.method = "" → preStage r = (none, t0) →
      env.transport k = Except.ok response → response.bodyBytes = Except.ok bs →
      checkAssertions response r.assertions = (ares, ta) →
      ares.type = ResultType.Success →
      r.testFunc = some tf → (tf response args).type = ResultType.Repeat →
      r.iterations - 1 = 0 →
      postHookCount (runE env r k args).2 = 0 ∧
      (runE env r k args).1 =
        some { type := ResultType.Failure
               description := "failed after running out of iterations" }) ∧
    (∀ (env : Env) (r : Request) (k : Nat) (args : Args) (t0 ta t' : List Event)
        (response : Response) (bs : List Nat) (ares : Result) (res' : Option Result)
        (tf : Response → Args → Result),
      ¬ r.url = "" → ¬ r.method = "" → preStage r = (none, t0) →
      env.transport k = Except.ok response → response.bodyBytes = Except.ok bs →
      checkAssertions response r.assertions = (ares, ta) →
      ares.type = ResultType.Success →
      r.testFunc = some tf → (tf response args).type = ResultType.Repeat →
      0 < r.iterations - 1 →
      runE env { r with responseBody := some bs, iterations := r.iterations - 1 }
        (k + 1) [(tf response args).downStreamArgs] = (res', t') →
      postHookCount (runE env r k args).2 = postHookCount t') ∧
    (∀ (env : Env) (r : Request) (k : Nat) (args : Args),
      r.url = "" → postHookCount (runE env r k args).2 = 0) ∧
    (∀ (env : Env) (r : Request) (k : Nat) (args : Args),
      ¬ r.url = "" → r.method = "" → postHookCount (runE env r k args).2 = 0) ∧
    (∀ (env : Env) (r : Request) (k : Nat) (args : Args) (f : Unit → Result),
      ¬ r.url = "" → ¬ r.method = "" → r.preRequestFunc = some f →
      ¬ (f ()).type = ResultType.Success →
      postHookCount (runE env r k args).2 = 0) ∧
    (∀ (env : Env) (r : Request) (k : Nat) (args : Args) (t0 : List Event) (e : String),
      ¬ r.url = "" → ¬ r.method = "" → preStage r = (none, t0) →
      env.transport k = Except.error e →
      postHookCount (runE env r k args).2 = 0) ∧
    (∀ (env : Env) (r : Request) (k : Nat) (args : Args) (t0 : List Event)
        (response : Response) (e : String),
      ¬ r.url = "" → ¬ r.method = "" → preStage r = (none, t0) →
      env.transport k = Except.ok response → response.bodyBytes = Except.error e →
      postHookCount (runE env r k args).2 = 0) ∧
    (∀ (env : Env) (r : Request) (k : Nat) (args : Args) (t0 ta : List Event)
        (response : Response) (bs : List Nat) (ares : Result),
      ¬ r.url = "" → ¬ r.method = "" → preStage r = (none, t0) →
      env.transport k = Except.ok response → response.bodyBytes = Except.ok bs →
      checkAssertions response r.assertions = (ares, ta) →
      ¬ ares.type = ResultType.Success →
      postHookCount (runE env r k args).2 = 0) := by
  refine ⟨?_, ?_, ?_, ?_, ?_, ?_, ?_, ?_, ?_, ?_⟩
  · intro env r k args t0 ta response bs ares tf pf hu hm hpre htr hbs hca has htf hnr hpf
    have heq := runE_test_done env r k args t0 ta response bs ares tf
      hu hm hpre htr hbs hca has htf hnr
    rw [postStage_of_some r (tf response args) pf hpf] at heq
    dsimp only at heq
    constructor
    · rw [heq]
      simp
    · rw [heq]
      dsimp only
      have h0 : postHookCount t0 = 0 := postHookCount_preStage r _ t0 hpre
      have ha : postHookCount ta = 0 := postHookCount_checkAssertions response r.assertions ares ta hca
      simp only [postHookCount] at h0 ha
      simp [postHookCount, List.countP_cons, h0, ha]
  · intro env r k args t0 ta response bs ares pf hu hm hpre htr hbs hca has htf hpf d hd
    have heq := runE_no_test env r k args t0 ta response bs ares
      hu hm hpre htr hbs hca has htf
    rw [← hd, postStage_of_some r d pf hpf] at heq
    dsimp only at heq
    rw [heq]
  · intro env r k args t0 ta response bs ares tf hu hm hpre htr hbs hca has htf hrep hz
    have heq := runE_repeat_exhaust env r k args t0 ta response bs ares tf
      hu hm hpre htr hbs hca has htf hrep hz
    constructor
    · rw [heq]
      dsimp only
      have h0 : postHookCount t0 = 0 := postHookCount_preStage r _ t0 hpre
      have ha : postHookCount ta = 0 := postHookCount_checkAssertions response r.assertions ares ta hca
      simp only [postHookCount] at h0 ha
      simp [postHookCount, List.countP_cons, h0, ha]
    · rw [heq]
  · intro env r k args t0 ta t' response bs ares res' tf
      hu hm hpre htr hbs hca has htf hrep hpos hrec
    have heq := runE_repeat_recurse env r k args t0 ta t' response bs ares res' tf
      hu hm hpre htr hbs hca has htf hrep hpos hrec
    rw [heq]
    dsimp only
    have h0 : postHookCount t0 = 0 := postHookCount_preStage r _ t0 hpre
    have ha : postHookCount ta = 0 := postHookCount_checkAssertions response r.assertions ares ta hca
    simp only [postHookCount] at h0 ha
    simp [postHookCount, List.countP_cons, h0, ha]
  · intro env r k args hu
    rw [runE_url_empty env r k args hu]
    rfl
  · intro env r k args hu hm
    rw [runE_method_empty env r k args hu hm]
    rfl
  · intro env r k args f hu hm hf hns
    rw [runE_pre_fail env r k args f hu hm hf hns]
    rfl
  · intro env r k args t0 e hu hm hpre htr
    rw [runE_transport_error env r k args t0 e hu hm hpre htr]
    dsimp only
    have h0 : postHookCount t0 = 0 := postHookCount_preStage r _ t0 hpre
    simp only [postHookCount] at h0
    simp [postHookCount, List.countP_cons, h0]
  · intro env r k args t0 response e hu hm hpre htr hbe
    rw [runE_body_error env r k args t0 response e hu hm hpre htr hbe]
    dsimp only
    have h0 : postHookCount t0 = 0 := postHookCount_preStage r _ t0 hpre
    simp only [postHookCount] at h0
    simp [postHookCount, List.countP_cons, h0]
  · intro env r k args t0 ta response bs ares hu hm hpre htr hbs hca hns
    rw [runE_assert_fail env r k args t0 ta response bs ares hu hm hpre htr hbs hca hns]
    dsimp only
    have h0 : postHookCount t0 = 0 := postHookCount_preStage r _ t0 hpre
    have ha : postHookCount ta = 0 := postHookCount_checkAssertions response r.assertions ares ta hca
    simp only [postHookCount] at h0 ha
    simp [postHookCount, List.countP_cons, h0, ha]

/-- C5 witness: a concrete run whose test returns a Failure with
description "boom" and whose post hook succeeds: the hook is called exactly
once with that exact result, which is returned unmodified. -/
theorem claim_C5_w :
    runE { transport := fun _ => Except.ok { statusCode := 200, bodyBytes := Except.ok [] } }
        { url := "u", method := "GET",
          testFunc := some fun _ _ => { type := ResultType.Failure, description := "boom" },
          postRequestFunc := some fun _ => { type := ResultType.Success } } 0 [] =
      (some { type := ResultType.Failure, description := "boom" },
        [Event.transportCall 0,
          Event.testCall { type := ResultType.Failure, description := "boom" },
          Event.postHookCall { type := ResultType.Failure, description := "boom" }
            { type := ResultType.Success }]) ∧
    postHookCount (runE { transport := fun _ => Except.ok { statusCode := 200, bodyBytes := Except.ok [] } }
        { url := "u", method := "GET",
          testFunc := some fun _ _ => { type := ResultType.Failure, description := "boom" },
          postRequestFunc := some fun _ => { type := ResultType.Success } } 0 []).2 = 1 := by
  have h := claim_C5.1 { transport := fun _ => Except.ok { statusCode := 200, bodyBytes := Except.ok [] } }
    { url := "u", method := "GET",
      testFunc := some fun _ _ => { type := ResultType.Failure, description := "boom" },
      postRequestFunc := some fun _ => { type := ResultType.Success } } 0 [] [] []
    { statusCode := 200, bodyBytes := Except.ok [] } [] { type := ResultType.Success }
    (fun _ _ => { type := ResultType.Failure, description := "boom" })
    (fun _ => { type := ResultType.Success })
    (by decide) (by decide) rfl rfl rfl rfl rfl rfl (by decide) rfl
  refine ⟨?_, h.2⟩
  have h1 := h.1
  simpa using h1

/-- C1: retry/exhaustion semantics of Run.  When the test function returns
a Repeat-kinded result the iteration counter is decremented: reaching
exactly zero yields the terminal Failure "failed after running out of
iterations" (no sleep), otherwise the run sleeps for the configured
interval and recurses, passing the prior result's downstream args.
Consequently, in the scenario where the test function answers Repeat on
every attempt before the server's N-th request and Success on the N-th, a
budget of exactly N returns Success and a budget of N-1 (for N ≥ 2) returns
that Failure. -/
theorem claim_C1 :
    (∀ (env : Env) (r : Request) (k : Nat) (args : Args) (t0 ta : List Event)
        (response : Response) (bs : List Nat) (ares : Result)
        (tf : Response → Args → Result),
      ¬ r.url = "" → ¬ r.method = "" → preStage r = (none, t0) →
      env.transport k = Except.ok response → response.bodyBytes = Except.ok bs →
      checkAssertions response r.assertions = (ares, ta) →
      ares.type = ResultType.Success →
      r.testFunc = some tf → (tf response args).type = ResultType.Repeat →
      r.iterations - 1 = 0 →
      runE env r k args =
        (some { type := ResultType.Failure
                description := "failed after running out of iterations" },
          t0 ++ [Event.transportCall k] ++ ta ++ [Event.testCall (tf response args)])) ∧
    (∀ (env : Env) (r : Request) (k : Nat) (args : Args) (t0 ta t' : List Event)
        (response : Response) (bs : List Nat) (ares : Result) (res' : Option Result)
        (tf : Response → Args → Result),
      ¬ r.url = "" → ¬ r.method = "" → preStage r = (none, t0) →
      env.transport k = Except.ok response → response.bodyBytes = Except.ok bs →
      checkAssertions response r.assertions = (ares, ta) →
      ares.type = ResultType.Success →
      r.testFunc = some tf → (tf response args).type = ResultType.Repeat →
      0 < r.iterations - 1 →
      runE env { r with responseBody := some bs, iterations := r.iterations - 1 }
        (k + 1) [(tf response args).downStreamArgs] = (res', t') →
      runE env r k args =
        (res', t0 ++ [Event.transportCall k] ++ ta ++
          [Event.testCall (tf response args), Event.sleepEv r.sleep] ++ t')) ∧
    (∀ (N sl : Nat), 1 ≤ N →
      (runE (repeatEnv N) (repeatReq (N : Int) sl none) 0 []).1 =
        some { type := ResultType.Success }) ∧
    (∀ (N sl : Nat), 2 ≤ N →
      (runE (repeatEnv N) (repeatReq ((N : Int) - 1) sl none) 0 []).1 =
        some { type := ResultType.Failure
               description := "failed after running out of iterations" }) := by
  refine ⟨?_, ?_, ?_, ?_⟩
  · intro env r k args t0 ta response bs ares tf hu hm hpre htr hbs hca has htf hrep hz
    exact runE_repeat_exhaust env r k args t0 ta response bs ares tf
      hu hm hpre htr hbs hca has htf hrep hz
  · intro env r k args t0 ta t' response bs ares res' tf
      hu hm hpre htr hbs hca has htf hrep hpos hrec
    exact runE_repeat_recurse env r k args t0 ta t' response bs ares res' tf
      hu hm hpre htr hbs hca has htf hrep hpos hrec
  · intro N sl hN
    have h := repeat_run N N hN 0 none [] sl
    rw [if_pos (by omega)] at h
    exact h
  · intro N sl hN
    have h := repeat_run N (N - 1) (by omega) 0 none [] sl
    rw [if_neg (by omega)] at h
    have hcast : ((N - 1 : Nat) : Int) = (N : Int) - 1 := by omega
    rw [hcast] at h
    exact h

/-- C1 witness: the scenario at N = 2 — budget 2 ends in Success, budget 1
ends in the exhaustion Failure. -/
theorem claim_C1_w :
    (runE (repeatEnv 2) (repeatReq ((2 : Nat) : Int) 0 none) 0 []).1 =
      some { type := ResultType.Success } ∧
    (runE (repeatEnv 2) (repeatReq (((2 : Nat) : Int) - 1) 0 none) 0 []).1 =
      some { type := ResultType.Failure
             description := "failed after running out of iterations" } :=
  ⟨claim_C1.2.2.1 2 0 (by decide), claim_C1.2.2.2 2 0 (by decide)⟩

/-- C9 counterexample: the claim "Run never returns a Repeat-kinded result"
fails as stated: a Request with budget 1 whose pre-hook returns a
Repeat-kinded result makes Run return a Repeat-kinded result through the
annotation path. -/
theorem claim_C9_cex :
    (1 : Int) ≤ ({ url := "u", method := "GET", iterations := 1,
                   preRequestFunc := some fun _ => { type := ResultType.Repeat } } :
                  Request).iterations ∧
    (runE { transport := fun _ => Except.error "x" }
        { url := "u", method := "GET", iterations := 1,
          preRequestFunc := some fun _ => { type := ResultType.Repeat } } 0 []).1 =
      some (AnnotateResult { type := ResultType.Repeat }
        "received non successful result from pre request func") ∧
    (AnnotateResult { type := ResultType.Repeat }
      "received non successful result from pre request func").type = ResultType.Repeat := by
  refine ⟨by decide, ?_, rfl⟩
  rw [runE_pre_fail _ _ 0 [] (fun _ => { type := ResultType.Repeat })
    (by decide) (by decide) rfl (by decide)]

/-- C9 (amended): for every Request with iteration budget at least 1, Run
terminates with a result (the budget strictly decreases on every Repeat
outcome and exhaustion is detected at exactly zero); the returned result is
never Repeat-kinded provided the pre-hook, the assertions and the post-hook
never themselves return a Repeat-kinded result — the test function's Repeat
is always consumed by the retry branch.  (Unamended, the no-Repeat half is
false: a hook's Repeat-kinded result is returned annotated, kind
preserved.) -/
theorem claim_C9 (env : Env) (r : Request) (k : Nat) (args : Args)
    (hit : 1 ≤ r.iterations) :
    (∃ res t, runE env r k args = (some res, t)) ∧
    ((∀ f, r.preRequestFunc = some f → ¬ (f ()).type = ResultType.Repeat) →
     (∀ a ∈ r.assertions, ∀ response, ¬ (a response).type = ResultType.Repeat) →
     (∀ f w, r.postRequestFunc = some f → ¬ (f w).type = ResultType.Repeat) →
     ∀ res t, runE env r k args = (some res, t) → ¬ res.type = ResultType.Repeat) := by
  obtain ⟨res, t, heq, hnr⟩ := runE_total r.iterations.toNat env r k args rfl hit
  refine ⟨⟨res, t, heq⟩, fun h1 h2 h3 res' t' heq' => ?_⟩
  rw [heq] at heq'
  injection heq' with ha hb
  injection ha with ha
  rw [← ha]
  exact hnr h1 h2 h3

/-- C9 witness: the amended theorem applied to a concrete hook-free request
with budget 1 whose transport errors out. -/
theorem claim_C9_w :
    ∃ res t, runE { transport := fun _ => Except.error "x" }
      { url := "u", method := "GET", iterations := 1 } 0 [] = (some res, t) :=
  (claim_C9 { transport := fun _ => Except.error "x" }
    { url := "u", method := "GET", iterations := 1 } 0 [] (by decide)).1

/-- C7: RequestGroup.Run executes its members strictly in sequence; the
first member whose result kind is Skip aborts the group — later members are
not executed — and the group returns a Skip result naming that member's
identifier; when no member yields Skip the group returns Success, whatever
Failure or Error results the members produced. -/
theorem claim_C7 (envs : Nat → Env) (gid : String) :
    (∀ (pre : List Request) (rskip : Request) (post : List Request),
      (∀ j (h : j < pre.length),
        ∃ res, (runE (envs j) (pre.get ⟨j, h⟩) 0 []).1 = some res ∧
          ¬ res.type = ResultType.Skip) →
      (∃ res, (runE (envs pre.length) rskip 0 []).1 = some res ∧
        res.type = ResultType.Skip) →
      RequestGroup.Run { id := gid, requests := pre ++ rskip :: post } envs =
        (some { type := ResultType.Skip
                description := "Skipped caused by request " ++ rskip.id },
          pre.length + 1)) ∧
    (∀ l : List Request,
      (∀ j (h : j < l.length),
        ∃ res, (runE (envs j) (l.get ⟨j, h⟩) 0 []).1 = some res ∧
          ¬ res.type = ResultType.Skip) →
      RequestGroup.Run { id := gid, requests := l } envs =
        (some { type := ResultType.Success }, l.length)) := by
  constructor
  · intro pre rskip post hall hskip
    exact groupRunAux_skip envs rskip post pre 0 (by simpa using hall) (by simpa using hskip)
  · intro l hall
    exact groupRunAux_success envs l 0 (by simpa using hall)

/-- C7 witness: a two-member group whose first member skips (via a
Skip-kinded pre-hook result) stops after one request; a one-member group
whose member fails still returns Success. -/
theorem claim_C7_w :
    RequestGroup.Run { id := "g", requests := [
        { id := "r1", url := "u", method := "GET",
          preRequestFunc := some fun _ => { type := ResultType.Skip } },
        { id := "r2", url := "u2", method := "GET" }] }
      (fun _ => { transport := fun _ => Except.error "x" }) =
      (some { type := ResultType.Skip
              description := "Skipped caused by request " ++ "r1" }, 1) ∧
    RequestGroup.Run { id := "g2", requests := [
        { id := "r3", url := "u", method := "GET" }] }
      (fun _ => { transport := fun _ => Except.error "x" }) =
      (some { type := ResultType.Success }, 1) := by
  constructor
  · have h := (claim_C7 (fun _ => { transport := fun _ => Except.error "x" }) "g").1 []
      { id := "r1", url := "u", method := "GET",
        preRequestFunc := some fun _ => { type := ResultType.Skip } }
      [{ id := "r2", url := "u2", method := "GET" }]
      (fun j hj => absurd hj (by simp))
      ⟨AnnotateResult { type := ResultType.Skip }
          "received non successful result from pre request func",
        by rw [runE_pre_fail _ _ 0 [] (fun _ => { type := ResultType.Skip })
          (by decide) (by decide) rfl (by decide)], rfl⟩
    simpa using h
  · have h := (claim_C7 (fun _ => { transport := fun _ => Except.error "x" }) "g2").2
      [{ id := "r3", url := "u", method := "GET" }]
      (fun j hj => by
        have hj0 : j = 0 := by simpa using hj
        subst hj0
        rw [show ([({ id := "r3", url := "u", method := "GET" } : Request)]).get ⟨0, hj⟩ =
          { id := "r3", url := "u", method := "GET" } from rfl]
        refine ⟨{ type := ResultType.Error,
                  description := "received an error while performing request: " ++ "x" },
          ?_, by decide⟩
        rw [runE_transport_error _ { id := "r3", url := "u", method := "GET" }
          0 [] [] "x" (by decide) (by decide) rfl rfl])
    simpa using h

/-- C1 counterexample: at N = 1 the claim's budget-N-1 half fails as
stated: the Request with iteration budget 0 in the N = 1 retry scenario
returns Success on its first attempt (the test function succeeds
immediately, so the retry branch is never entered), not the exhaustion
Failure. -/
theorem claim_C1_cex :
    (runE (repeatEnv 1) (repeatReq (((1 : Nat) : Int) - 1) 0 none) 0 []).1 =
      some { type := ResultType.Success } ∧
    ¬ (runE (repeatEnv 1) (repeatReq (((1 : Nat) : Int) - 1) 0 none) 0 []).1 =
      some { type := ResultType.Failure
             description := "failed after running out of iterations" } := by
  have h := repeat_run_hit 1 (((1 : Nat) : Int) - 1) 0 none [] 0 rfl
  exact ⟨h, by rw [h]; simp⟩

end Jobbigt
